import Mathlib

/-!
Shallow embedding of the link-processor service (`src/main.py`).

The service issues signed "deferred action" links and redeems them:
`create_link` validates the delay, signs a JWT-like token carrying
`(callback_url, seconds, redirect_url, exp)`; `redirect` verifies the
token, performs a visit-deduplication check against a Redis set keyed
by `visited_key(base_url, redirect_url)`, and on a first visit records
the visitor state and schedules a delayed callback.

Machine words are modelled as `Nat` with explicit reduction mod `2^32`;
the Redis store is modelled as association lists (sets plus TTLs); each
awaited Redis call of the redemption handler is one atomic step of a
small interleaving model used for the concurrency claims.
-/

/-- Reduce a natural number to a 32-bit word. -/
def w32 (n : Nat) : Nat := n % 4294967296

/-- Rotate a 32-bit word right by `n` bits. -/
def rotr (n x : Nat) : Nat := w32 ((x >>> n) ||| (x <<< (32 - n)))

/-- SHA-256 `Ch` function; `~x` is xor with the 32-bit all-ones mask. -/
def shaCh (x y z : Nat) : Nat := (x &&& y) ^^^ ((x ^^^ 4294967295) &&& z)

/-- SHA-256 `Maj` function. -/
def shaMaj (x y z : Nat) : Nat := (x &&& y) ^^^ (x &&& z) ^^^ (y &&& z)

/-- SHA-256 big sigma 0. -/
def bigSigma0 (x : Nat) : Nat := rotr 2 x ^^^ rotr 13 x ^^^ rotr 22 x

/-- SHA-256 big sigma 1. -/
def bigSigma1 (x : Nat) : Nat := rotr 6 x ^^^ rotr 11 x ^^^ rotr 25 x

/-- SHA-256 small sigma 0. -/
def smallSigma0 (x : Nat) : Nat := rotr 7 x ^^^ rotr 18 x ^^^ (x >>> 3)

/-- SHA-256 small sigma 1. -/
def smallSigma1 (x : Nat) : Nat := rotr 17 x ^^^ rotr 19 x ^^^ (x >>> 10)

/-- The 64 SHA-256 round constants. -/
def shaK : Array Nat := #[
  1116352408, 1899447441, 3049323471, 3921009573, 961987163,
  1508970993, 2453635748, 2870763221, 3624381080, 310598401,
  607225278, 1426881987, 1925078388, 2162078206, 2614888103,
  3248222580, 3835390401, 4022224774, 264347078, 604807628,
  770255983, 1249150122, 1555081692, 1996064986, 2554220882,
  2821834349, 2952996808, 3210313671, 3336571891, 3584528711,
  113926993, 338241895, 666307205, 773529912, 1294757372,
  1396182291, 1695183700, 1986661051, 2177026350, 2456956037,
  2730485921, 2820302411, 3259730800, 3345764771, 3516065817,
  3600352804, 4094571909, 275423344, 430227734, 506948616,
  659060556, 883997877, 958139571, 1322822218, 1537002063,
  1747873779, 1955562222, 2024104815, 2227730452, 2361852424,
  2428436474, 2756734187, 3204031479, 3329325298]

/-- The initial SHA-256 hash state. -/
def shaH0 : List Nat :=
  [1779033703, 3144134277, 1013904242, 2773480762,
   1359893119, 2600822924, 528734635, 1541459225]

/-- Extend the 16 words of one block to the 64-word message schedule. -/
def shaSchedule (block : List Nat) : Array Nat :=
  (List.range 48).foldl
    (fun w i =>
      let t := i + 16
      let s0 := smallSigma0 (w.getD (t - 15) 0)
      let s1 := smallSigma1 (w.getD (t - 2) 0)
      w.push (w32 (w.getD (t - 16) 0 + s0 + w.getD (t - 7) 0 + s1)))
    block.toArray

/-- One round of the SHA-256 compression function on an 8-word state. -/
def shaRound (k wt : Nat) (st : List Nat) : List Nat :=
  match st with
  | [a, b, c, d, e, f, g, h] =>
    let t1 := w32 (h + bigSigma1 e + shaCh e f g + k + wt)
    let t2 := w32 (bigSigma0 a + shaMaj a b c)
    [w32 (t1 + t2), a, b, c, w32 (d + t1), e, f, g]
  | other => other

/-- Compress one 16-word block into the running hash state. -/
def shaCompress (h : List Nat) (block : List Nat) : List Nat :=
  let w := shaSchedule block
  let st := (List.range 64).foldl (fun st i => shaRound (shaK.getD i 0) (w.getD i 0) st) h
  List.zipWith (fun a b => w32 (a + b)) h st

/-- Fold the compression function over `n` consecutive 16-word blocks. -/
def shaBlocksAux : Nat → List Nat → List Nat → List Nat
  | 0, h, _ => h
  | n + 1, h, words => shaBlocksAux n (shaCompress h (words.take 16)) (words.drop 16)

/-- Pack a byte list (big-endian) into 32-bit words. -/
def bytesToWords : List Nat → List Nat
  | b0 :: b1 :: b2 :: b3 :: rest =>
    ((b0 <<< 24) ||| (b1 <<< 16) ||| (b2 <<< 8) ||| b3) :: bytesToWords rest
  | _ => []

/-- The 8 big-endian bytes of the 64-bit message bit length. -/
def shaLenBytes (bits : Nat) : List Nat :=
  (List.range 8).map (fun i => (bits >>> (8 * (7 - i))) &&& 0xff)

/-- SHA-256 of a byte list, returned as the 8 words of the digest. -/
def sha256words (msg : List Nat) : List Nat :=
  let padded := msg ++ 0x80 :: List.replicate ((120 - (msg.length + 1) % 64) % 64) 0
    ++ shaLenBytes (8 * msg.length)
  let words := bytesToWords padded
  shaBlocksAux (words.length / 16) shaH0 words

/-- UTF-8 encoding of one unicode code point. -/
def utf8EncodeCodePoint (n : Nat) : List Nat :=
  if n < 0x80 then [n]
  else if n < 0x800 then [0xc0 ||| (n >>> 6), 0x80 ||| (n &&& 0x3f)]
  else if n < 0x10000 then
    [0xe0 ||| (n >>> 12), 0x80 ||| ((n >>> 6) &&& 0x3f), 0x80 ||| (n &&& 0x3f)]
  else
    [0xf0 ||| (n >>> 18), 0x80 ||| ((n >>> 12) &&& 0x3f),
     0x80 ||| ((n >>> 6) &&& 0x3f), 0x80 ||| (n &&& 0x3f)]

/-- UTF-8 byte encoding of a string, as in Python's `str.encode("utf-8")`. -/
def utf8Bytes (s : String) : List Nat :=
  (s.data.map (fun c => utf8EncodeCodePoint c.toNat)).flatten

/-- Lowercase hex digit for a value below 16. -/
def hexDigitChar (n : Nat) : Char :=
  if n < 10 then Char.ofNat (48 + n) else Char.ofNat (87 + n)

/-- Lowercase hex rendering of a 32-bit word, 8 digits. -/
def wordToHex (n : Nat) : List Char :=
  (List.range 8).map (fun i => hexDigitChar ((n >>> (4 * (7 - i))) &&& 0xf))

/-- Hex digest of SHA-256, as `hashlib.sha256(s.encode("utf-8")).hexdigest()`. -/
def sha256hex (s : String) : String :=
  String.mk (((sha256words (utf8Bytes s)).map wordToHex).flatten)

/-- The pre-hash key source of `visited_key`: `f"{base_url}|{redirect_url}"`. -/
def key_source (base_url redirect_url : String) : String :=
  base_url ++ "|" ++ redirect_url

/-- Embedding of `visited_key` (src/main.py:28-31): the Redis key under which
visitor states for one `(base_url, redirect_url)` pair are recorded. -/
def visited_key (base_url redirect_url : String) : String :=
  "visited:" ++ sha256hex (key_source base_url redirect_url)

/-- The decoded claims of a link token (`payload` in src/main.py:99-104):
callback target, delay seconds, redirect destination and expiry instant. -/
structure LinkPayload where
  callback_url : String
  seconds : Int
  redirect_url : String
  exp : Nat
  deriving DecidableEq, Repr

/-- Canonical serialization of a payload, standing in for the JSON/base64
serialization done inside `jwt.encode`. -/
def serializePayload (p : LinkPayload) : String :=
  p.callback_url ++ "\n" ++ toString p.seconds ++ "\n" ++ p.redirect_url ++ "\n" ++ toString p.exp

/-- Model of the HMAC-SHA256 signature `jwt.encode` computes over the payload
with the shared secret: a deterministic digest of secret and serialized
payload, verified by recomputation. -/
def hmacSign (secret payload : String) : String :=
  sha256hex (secret ++ "." ++ payload)

/-- An encoded token: the payload together with its signature. A token whose
signature does not match the recomputed one is tampered/malformed. -/
structure Token where
  payload : LinkPayload
  sig : String
  deriving DecidableEq, Repr

/-- Embedding of `jwt.encode(payload, SECRET_KEY, algorithm=ALGORITHM)`
(src/main.py:106): sign the serialized payload with the secret. -/
def jwt_encode (secret : String) (p : LinkPayload) : Token :=
  ⟨p, hmacSign secret (serializePayload p)⟩

/-- Outcome of `jwt.decode`: the payload, or `ExpiredSignatureError`, or
`InvalidTokenError`. -/
inductive DecodeResult where
  | ok (payload : LinkPayload)
  | expired
  | invalid
  deriving DecidableEq, Repr

/-- Embedding of `jwt.decode(token, SECRET_KEY, algorithms=[ALGORITHM])`
(src/main.py:123): the signature is verified first; a token with a valid
signature whose `exp` has passed raises `ExpiredSignatureError`. -/
def jwt_decode (secret : String) (t : Token) (now : Nat) : DecodeResult :=
  if t.sig ≠ hmacSign secret (serializePayload t.payload) then .invalid
  else if t.payload.exp ≤ now then .expired
  else .ok t.payload

/-- Embedding of `LinkRequest.validate_seconds` (src/main.py:51-57). A
`ValueError` raised by a pydantic validator surfaces as a 422 response and
no handler runs. -/
def validate_seconds (v : Int) : Except String Int :=
  if v ≤ 0 then .error "Seconds must be positive"
  else if v > 3600 then .error "Maximum delay is 3600 seconds (1 hour)"
  else .ok v

/-- Thirty days in seconds: the token lifetime `timedelta(days=30)` and the
default `VISITED_TTL_SECONDS`. -/
def thirtyDaysSeconds : Nat := 30 * 24 * 60 * 60

/-- Embedding of the `create_link` handler (src/main.py:95-109): after the
request model validates `seconds`, the payload carries the callback URL, the
delay, the redirect URL and `exp = now + 30 days`, signed into a token. -/
def create_link (secret : String) (now : Nat) (callback_url : String) (seconds : Int)
    (redirect_url : String) : Except String Token :=
  match validate_seconds seconds with
  | .error e => .error e
  | .ok s => .ok (jwt_encode secret ⟨callback_url, s, redirect_url, now + thirtyDaysSeconds⟩)

/-- First binding for a key in an association list, as Redis keys are unique. -/
def assocFind {α : Type} : List (String × α) → String → Option α
  | [], _ => none
  | (k, v) :: rest, key => if k = key then some v else assocFind rest key

/-- Update the value at `key`, or append `(key, dflt)` when absent. -/
def assocUpdate {α : Type} (l : List (String × α)) (key : String) (f : α → α) (dflt : α) :
    List (String × α) :=
  match l with
  | [] => [(key, dflt)]
  | (k, v) :: rest => if k = key then (k, f v) :: rest else (k, v) :: assocUpdate rest key f dflt

/-- State of the Redis backend as the handler uses it: the sets holding
visitor states per key, and the keys that carry an expiry (with its value).
A key absent from `ttls` has no expiry (`TTL` answers `-1`). -/
structure RedisState where
  sets : List (String × List String)
  ttls : List (String × Nat)
  deriving DecidableEq, Repr

/-- Redis `SISMEMBER key member`. -/
def RedisState.sismember (rs : RedisState) (key member : String) : Bool :=
  match assocFind rs.sets key with
  | some ms => ms.contains member
  | none => false

/-- Redis `SADD key member`: create the set when absent, add the member when new. -/
def RedisState.sadd (rs : RedisState) (key member : String) : RedisState :=
  { rs with
    sets := assocUpdate rs.sets key
      (fun ms => if ms.contains member then ms else ms ++ [member]) [member] }

/-- Redis `TTL key`: `-2` when the key does not exist, `-1` when it exists
without an expiry, else the remaining time. -/
def RedisState.ttl (rs : RedisState) (key : String) : Int :=
  match assocFind rs.sets key with
  | none => -2
  | some _ =>
    match assocFind rs.ttls key with
    | none => -1
    | some t => Int.ofNat t

/-- Redis `EXPIRE key seconds`: set (or overwrite) the key's expiry. -/
def RedisState.expire (rs : RedisState) (key : String) (t : Nat) : RedisState :=
  { rs with ttls := assocUpdate rs.ttls key (fun _ => t) t }

/-- HTTP-level outcome of the `redirect` handler: an `HTTPException` with its
status and detail, or a `RedirectResponse` to the destination URL. -/
inductive RedirectOutcome where
  | httpError (status : Nat) (detail : String)
  | redirectTo (url : String)
  deriving DecidableEq, Repr

/-- Result of one run of the `redirect` handler: the response, the backend
state afterwards (`none` when no client is connected), and the background
tasks added — each a `(callback_url, state, delay)` triple handed to
`schedule_callback`. -/
structure RedirectResult where
  outcome : RedirectOutcome
  store : Option RedisState
  scheduled : List (String × String × Int)
  deriving DecidableEq, Repr

/-- Embedding of the `redirect` handler (src/main.py:112-159) run to
completion in isolation: missing `state` is rejected with 400; the token is
decoded (expiry and tampering become 400 responses); falsy payload fields are
rejected; a missing Redis client is a 503; an already-recorded visitor state
is redirected with no store change and no task; a first visit is recorded,
the key's expiry is set when `TTL` answers `-1`, and one delayed callback
task is scheduled. -/
def redirect (secret : String) (now : Nat) (ttlConfig : Nat) (token : Token)
    (base_url : String) (state : Option String) (store : Option RedisState) : RedirectResult :=
  match state with
  | none => ⟨.httpError 400 "State is required", store, []⟩
  | some st =>
    match jwt_decode secret token now with
    | .expired => ⟨.httpError 400 "Link has expired", store, []⟩
    | .invalid => ⟨.httpError 400 "Invalid link", store, []⟩
    | .ok p =>
      if p.callback_url = "" ∨ p.seconds = 0 ∨ p.redirect_url = "" then
        ⟨.httpError 400 "Invalid link parameters", store, []⟩
      else
        match store with
        | none => ⟨.httpError 503 "Redis is not available", none, []⟩
        | some rs =>
          let key := visited_key base_url p.redirect_url
          if rs.sismember key st then
            ⟨.redirectTo p.redirect_url, some rs, []⟩
          else
            let rs1 := rs.sadd key st
            let t := rs1.ttl key
            let rs2 := if t = -1 then rs1.expire key ttlConfig else rs1
            ⟨.redirectTo p.redirect_url, some rs2, [(p.callback_url, st, p.seconds)]⟩

/-- Control point of one redemption's dedup section, between awaited Redis
calls (src/main.py:137-152). Each constructor-to-constructor transition is
one awaited call; other tasks may interleave at each boundary. -/
inductive DPhase where
  | start
  | checked (alreadyVisited : Bool)
  | added
  | gotTtl (t : Int)
  | finished (scheduledCallback : Bool)
  deriving DecidableEq, Repr

/-- One atomic step of a redemption task at its current control point:
`SISMEMBER`, then (when not yet visited) `SADD`, `TTL`, conditional
`EXPIRE` followed by scheduling the callback. A task that saw the state
already recorded finishes without scheduling. -/
def dedupStep (key st : String) (cfg : Nat) (rs : RedisState) : DPhase → DPhase × RedisState
  | .start => (.checked (rs.sismember key st), rs)
  | .checked true => (.finished false, rs)
  | .checked false => (.added, rs.sadd key st)
  | .added => (.gotTtl (rs.ttl key), rs)
  | .gotTtl t => (.finished true, if t = -1 then rs.expire key cfg else rs)
  | .finished b => (.finished b, rs)

/-- Two concurrent redemptions with identical key and visitor state sharing
one Redis backend. -/
structure DedupWorld where
  rs : RedisState
  task0 : DPhase
  task1 : DPhase
  deriving DecidableEq, Repr

/-- Run two concurrent redemptions under an explicit interleaving: each
schedule entry names the task that performs its next atomic step. -/
def runDedup (key st : String) (cfg : Nat) : List Bool → DedupWorld → DedupWorld
  | [], w => w
  | pick :: rest, w =>
    if pick then
      let (p, rs) := dedupStep key st cfg w.rs w.task1
      runDedup key st cfg rest { w with task1 := p, rs := rs }
    else
      let (p, rs) := dedupStep key st cfg w.rs w.task0
      runDedup key st cfg rest { w with task0 := p, rs := rs }

/-- Backend state produced by the first-visit branch of `redirect`
(src/main.py:142-145): add the state, then set the expiry exactly when
`TTL` answered `-1`. -/
def recordVisit (rs : RedisState) (key st : String) (cfg : Nat) : RedisState :=
  let rs1 := rs.sadd key st
  if rs1.ttl key = -1 then rs1.expire key cfg else rs1

/-- Status of the Redis backend at redemption time. `from_url`
(src/main.py:37) creates the client lazily without connecting, so besides a
missing client (`redis_client is None`, before the startup hook) the client
may exist while the backend is unreachable; every awaited Redis command then
raises `redis.ConnectionError`. -/
inductive Backend where
  | noClient
  | unreachable (rs : RedisState)
  | connected (rs : RedisState)
  deriving DecidableEq, Repr

/-- Response-level outcome of the redemption handler including the
uncaught-exception path: the `try` at src/main.py:122 catches only the two
jwt errors, so a `ConnectionError` raised by an awaited Redis call escapes
the handler and the framework surfaces it as an HTTP 500 Internal Server
Error, not as an `HTTPException` the handler chose. -/
inductive HandlerOutcome where
  | response (r : RedirectOutcome)
  | internalServerError (exception : String)
  deriving DecidableEq, Repr

/-- Result of one run of the handler in the model that distinguishes a
missing client from an unreachable backend. -/
structure HandlerResult where
  outcome : HandlerOutcome
  backend : Backend
  scheduled : List (String × String × Int)
  deriving DecidableEq, Repr

/-- Embedding of the `redirect` handler (src/main.py:112-159) including the
behaviour of an unreachable backend. The checks run in source order; with a
client present but the backend unreachable, the first awaited Redis command
(`SISMEMBER`, line 137) raises `ConnectionError`, which neither
`except jwt.ExpiredSignatureError` nor `except jwt.InvalidTokenError`
catches, so the request dies with an unhandled exception (HTTP 500): no
state is recorded and no callback is scheduled. On a connected backend the
handler behaves exactly as `redirect`. -/
def redirect_with_backend (secret : String) (now : Nat) (ttlConfig : Nat) (token : Token)
    (base_url : String) (state : Option String) (backend : Backend) : HandlerResult :=
  match state with
  | none => ⟨.response (.httpError 400 "State is required"), backend, []⟩
  | some st =>
    match jwt_decode secret token now with
    | .expired => ⟨.response (.httpError 400 "Link has expired"), backend, []⟩
    | .invalid => ⟨.response (.httpError 400 "Invalid link"), backend, []⟩
    | .ok p =>
      if p.callback_url = "" ∨ p.seconds = 0 ∨ p.redirect_url = "" then
        ⟨.response (.httpError 400 "Invalid link parameters"), backend, []⟩
      else
        match backend with
        | .noClient => ⟨.response (.httpError 503 "Redis is not available"), .noClient, []⟩
        | .unreachable rs => ⟨.internalServerError "ConnectionError", .unreachable rs, []⟩
        | .connected rs =>
          let key := visited_key base_url p.redirect_url
          if rs.sismember key st then
            ⟨.response (.redirectTo p.redirect_url), .connected rs, []⟩
          else
            let rs1 := rs.sadd key st
            let t := rs1.ttl key
            let rs2 := if t = -1 then rs1.expire key ttlConfig else rs1
            ⟨.response (.redirectTo p.redirect_url), .connected rs2,
              [(p.callback_url, st, p.seconds)]⟩

/-! Lemmas about the token codec. -/

/-- Decoding a token signed with the same secret verifies the signature and
then only checks expiry. -/
theorem jwt_decode_encode (secret : String) (p : LinkPayload) (now : Nat) :
    jwt_decode secret (jwt_encode secret p) now =
      if p.exp ≤ now then .expired else .ok p := by
  simp [jwt_decode, jwt_encode]

/-- C1: decoding the token produced by `create_link` with the same secret,
before its expiry, yields exactly the original callback_url, seconds and
redirect_url. -/
theorem create_link_roundtrip (secret cb ru : String) (s : Int) (now now2 : Nat)
    (h1 : 1 ≤ s) (h2 : s ≤ 3600) (hnow : now2 < now + thirtyDaysSeconds) :
    ∃ t, create_link secret now cb s ru = .ok t ∧
      jwt_decode secret t now2 = .ok ⟨cb, s, ru, now + thirtyDaysSeconds⟩ := by
  refine ⟨jwt_encode secret ⟨cb, s, ru, now + thirtyDaysSeconds⟩, ?_, ?_⟩
  · rw [create_link, validate_seconds, if_neg (by omega), if_neg (by omega)]
  · rw [jwt_decode_encode, if_neg (not_le.mpr hnow)]

/-- Witness for C1 at a concrete input. -/
theorem create_link_roundtrip_witness :
    (1 ≤ (5 : Int)) ∧ ((5 : Int) ≤ 3600) ∧ (10 < 0 + thirtyDaysSeconds) ∧
    ∃ t, create_link "k" 0 "http://cb" 5 "http://dest" = .ok t ∧
      jwt_decode "k" t 10 = .ok ⟨"http://cb", 5, "http://dest", 0 + thirtyDaysSeconds⟩ :=
  ⟨by decide, by decide, by decide,
    create_link_roundtrip "k" "http://cb" "http://dest" 5 0 10 (by decide) (by decide) (by decide)⟩

/-- C6: link creation issues a token exactly for `seconds` in `[1, 3600]` and
rejects the request (pydantic `ValueError`, surfaced as 422) otherwise. -/
theorem create_link_validates_delay (secret cb ru : String) (s : Int) (now : Nat) :
    ((∃ e, create_link secret now cb s ru = .error e) ↔ (s < 1 ∨ 3600 < s)) ∧
    ((∃ t, create_link secret now cb s ru = .ok t) ↔ (1 ≤ s ∧ s ≤ 3600)) := by
  unfold create_link validate_seconds
  by_cases h1 : s ≤ 0 <;> by_cases h2 : s > 3600 <;> simp [h1, h2] <;> omega

/-- C2: the check-and-record is not atomic — under the interleaving in which
both concurrent redemptions run their `SISMEMBER` step before either runs
`SADD`, both observe a first visit and both schedule a callback. -/
theorem dedup_check_and_set_race :
    (runDedup "k" "s" 100 [false, true, false, false, false, true, true, true]
      ⟨⟨[], []⟩, .start, .start⟩).task0 = .finished true ∧
    (runDedup "k" "s" 100 [false, true, false, false, false, true, true, true]
      ⟨⟨[], []⟩, .start, .start⟩).task1 = .finished true := by
  decide

/-! Lemmas about the association-list store. -/

/-- Finding the updated key returns the default when it was absent and the
mapped value when present. -/
theorem assocFind_assocUpdate_self {α : Type} (l : List (String × α)) (key : String)
    (f : α → α) (d : α) :
    assocFind (assocUpdate l key f d) key =
      some (match assocFind l key with | none => d | some v => f v) := by
  induction l with
  | nil => simp [assocUpdate, assocFind]
  | cons kv rest ih =>
    obtain ⟨k, v⟩ := kv
    by_cases h : k = key
    · simp [assocUpdate, assocFind, h]
    · simp [assocUpdate, assocFind, h, ih]

/-- Membership after `SADD`: the added member is present, everything else is
as before. -/
theorem sismember_sadd (rs : RedisState) (key st st' : String) :
    (rs.sadd key st).sismember key st' = (rs.sismember key st' || decide (st' = st)) := by
  unfold RedisState.sismember RedisState.sadd
  simp only [assocFind_assocUpdate_self]
  cases h : assocFind rs.sets key with
  | none => simp
  | some ms =>
    by_cases hc : st ∈ ms
    · by_cases he : st' = st
      · subst he; simp [hc]
      · simp [hc, he]
    · simp [hc, List.mem_append]

/-- `EXPIRE` does not change set membership. -/
theorem sismember_expire (rs : RedisState) (key k m : String) (t : Nat) :
    (rs.expire key t).sismember k m = rs.sismember k m := rfl

/-- After `SADD` the key exists, so `TTL` answers `-1` exactly when the key
carries no expiry. -/
theorem ttl_sadd (rs : RedisState) (key st : String) :
    (rs.sadd key st).ttl key =
      match assocFind rs.ttls key with
      | none => -1
      | some t => Int.ofNat t := by
  unfold RedisState.ttl RedisState.sadd
  simp only [assocFind_assocUpdate_self]

/-- Expiry at the visited key after the first-visit branch: the configured
window when the key had no expiry, the unchanged old expiry otherwise. -/
theorem assocFind_ttls_recordVisit (rs : RedisState) (key st : String) (cfg : Nat) :
    assocFind (recordVisit rs key st cfg).ttls key =
      some ((assocFind rs.ttls key).getD cfg) := by
  simp only [recordVisit]
  rw [ttl_sadd]
  cases h : assocFind rs.ttls key with
  | none =>
    simp only [h, if_pos rfl]
    simp [RedisState.expire, RedisState.sadd, assocFind_assocUpdate_self, h]
  | some t =>
    simp only [h]
    rw [if_neg (by simp)]
    simp [RedisState.sadd, h]

/-- Membership after the first-visit branch. -/
theorem sismember_recordVisit (rs : RedisState) (key st st' : String) (cfg : Nat) :
    (recordVisit rs key st cfg).sismember key st' =
      (rs.sismember key st' || decide (st' = st)) := by
  simp only [recordVisit]
  split
  · rw [sismember_expire, sismember_sadd]
  · rw [sismember_sadd]

/-- Unfolding of the `redirect` handler on a valid token and a first visit:
the visitor is redirected, the visit is recorded (with the TTL rule of
`recordVisit`) and exactly one delayed callback task is scheduled. -/
theorem redirect_first_visit (secret base st : String) (now cfg : Nat) (p : LinkPayload)
    (rs : RedisState)
    (hexp : now < p.exp) (hcb : p.callback_url ≠ "") (hs : p.seconds ≠ 0)
    (hru : p.redirect_url ≠ "")
    (hfirst : rs.sismember (visited_key base p.redirect_url) st = false) :
    redirect secret now cfg (jwt_encode secret p) base (some st) (some rs) =
      ⟨.redirectTo p.redirect_url,
        some (recordVisit rs (visited_key base p.redirect_url) st cfg),
        [(p.callback_url, st, p.seconds)]⟩ := by
  rw [redirect, jwt_decode_encode, if_neg (not_le.mpr hexp)]
  simp [hcb, hs, hru, hfirst, recordVisit]

/-- Unfolding of the `redirect` handler on a valid token when the visitor
state is already recorded: redirect only, store untouched, nothing
scheduled. -/
theorem redirect_repeat_visit (secret base st : String) (now cfg : Nat) (p : LinkPayload)
    (rs : RedisState)
    (hexp : now < p.exp) (hcb : p.callback_url ≠ "") (hs : p.seconds ≠ 0)
    (hru : p.redirect_url ≠ "")
    (hvisited : rs.sismember (visited_key base p.redirect_url) st = true) :
    redirect secret now cfg (jwt_encode secret p) base (some st) (some rs) =
      ⟨.redirectTo p.redirect_url, some rs, []⟩ := by
  rw [redirect, jwt_decode_encode, if_neg (not_le.mpr hexp)]
  simp [hcb, hs, hru, hvisited]

/-- C3: for one destination and origin context, two successive redemptions
with the same visitor state observe first-visit then not-first-visit and one
callback is scheduled in total; with two distinct fresh visitor states both
observe first-visit and two callbacks are scheduled. -/
theorem sequential_dedup_semantics (secret base st st1 st2 : String) (now now2 cfg : Nat)
    (p : LinkPayload) (rs0 : RedisState)
    (hexp : now < p.exp) (hexp2 : now2 < p.exp)
    (hcb : p.callback_url ≠ "") (hs : p.seconds ≠ 0) (hru : p.redirect_url ≠ "")
    (hst : rs0.sismember (visited_key base p.redirect_url) st = false)
    (hst1 : rs0.sismember (visited_key base p.redirect_url) st1 = false)
    (hst2 : rs0.sismember (visited_key base p.redirect_url) st2 = false)
    (hne : st1 ≠ st2) :
    ((redirect secret now cfg (jwt_encode secret p) base (some st) (some rs0)).outcome
        = .redirectTo p.redirect_url ∧
      (redirect secret now cfg (jwt_encode secret p) base (some st) (some rs0)).scheduled
        = [(p.callback_url, st, p.seconds)] ∧
      redirect secret now2 cfg (jwt_encode secret p) base (some st)
          (redirect secret now cfg (jwt_encode secret p) base (some st) (some rs0)).store
        = ⟨.redirectTo p.redirect_url,
            (redirect secret now cfg (jwt_encode secret p) base (some st) (some rs0)).store,
            []⟩) ∧
    ((redirect secret now cfg (jwt_encode secret p) base (some st1) (some rs0)).scheduled
        = [(p.callback_url, st1, p.seconds)] ∧
      (redirect secret now2 cfg (jwt_encode secret p) base (some st2)
          (redirect secret now cfg (jwt_encode secret p) base (some st1) (some rs0)).store).outcome
        = .redirectTo p.redirect_url ∧
      (redirect secret now2 cfg (jwt_encode secret p) base (some st2)
          (redirect secret now cfg (jwt_encode secret p) base (some st1) (some rs0)).store).scheduled
        = [(p.callback_url, st2, p.seconds)]) := by
  have h1 := redirect_first_visit secret base st now cfg p rs0 hexp hcb hs hru hst
  have hv : (recordVisit rs0 (visited_key base p.redirect_url) st cfg).sismember
      (visited_key base p.redirect_url) st = true := by
    rw [sismember_recordVisit, hst]; simp
  have h2 := redirect_repeat_visit secret base st now2 cfg p
    (recordVisit rs0 (visited_key base p.redirect_url) st cfg) hexp2 hcb hs hru hv
  have h1' := redirect_first_visit secret base st1 now cfg p rs0 hexp hcb hs hru hst1
  have hv2 : (recordVisit rs0 (visited_key base p.redirect_url) st1 cfg).sismember
      (visited_key base p.redirect_url) st2 = false := by
    rw [sismember_recordVisit, hst2]; simp [Ne.symm hne]
  have h3 := redirect_first_visit secret base st2 now2 cfg p
    (recordVisit rs0 (visited_key base p.redirect_url) st1 cfg) hexp2 hcb hs hru hv2
  refine ⟨⟨?_, ?_, ?_⟩, ?_, ?_, ?_⟩ <;> simp [h1, h2, h1', h3]

/-- Witness for C3 at a concrete input. -/
theorem sequential_dedup_semantics_witness :
    ((redirect "k" 0 3600 (jwt_encode "k" ⟨"http://cb", 5, "http://dest", 100⟩) "http://h"
        (some "u1") (some ⟨[], []⟩)).outcome = .redirectTo "http://dest" ∧
      (redirect "k" 0 3600 (jwt_encode "k" ⟨"http://cb", 5, "http://dest", 100⟩) "http://h"
        (some "u1") (some ⟨[], []⟩)).scheduled = [("http://cb", "u1", 5)] ∧
      redirect "k" 1 3600 (jwt_encode "k" ⟨"http://cb", 5, "http://dest", 100⟩) "http://h"
          (some "u1")
          (redirect "k" 0 3600 (jwt_encode "k" ⟨"http://cb", 5, "http://dest", 100⟩) "http://h"
            (some "u1") (some ⟨[], []⟩)).store
        = ⟨.redirectTo "http://dest",
            (redirect "k" 0 3600 (jwt_encode "k" ⟨"http://cb", 5, "http://dest", 100⟩) "http://h"
              (some "u1") (some ⟨[], []⟩)).store, []⟩) ∧
    ((redirect "k" 0 3600 (jwt_encode "k" ⟨"http://cb", 5, "http://dest", 100⟩) "http://h"
        (some "u1") (some ⟨[], []⟩)).scheduled = [("http://cb", "u1", 5)] ∧
      (redirect "k" 1 3600 (jwt_encode "k" ⟨"http://cb", 5, "http://dest", 100⟩) "http://h"
          (some "u2")
          (redirect "k" 0 3600 (jwt_encode "k" ⟨"http://cb", 5, "http://dest", 100⟩) "http://h"
            (some "u1") (some ⟨[], []⟩)).store).outcome = .redirectTo "http://dest" ∧
      (redirect "k" 1 3600 (jwt_encode "k" ⟨"http://cb", 5, "http://dest", 100⟩) "http://h"
          (some "u2")
          (redirect "k" 0 3600 (jwt_encode "k" ⟨"http://cb", 5, "http://dest", 100⟩) "http://h"
            (some "u1") (some ⟨[], []⟩)).store).scheduled = [("http://cb", "u2", 5)]) :=
  sequential_dedup_semantics "k" "http://h" "u1" "u1" "u2" 0 1 3600
    ⟨"http://cb", 5, "http://dest", 100⟩ ⟨[], []⟩ (by decide) (by decide) (by decide)
    (by decide) (by decide) (by decide) (by decide) (by decide) (by decide)

set_option maxRecDepth 100000 in
/-- C4 counterexample: a redemption with a valid, unexpired token against a
present-but-unreachable backend does not fail with the claimed 503 — the
uncaught `ConnectionError` surfaces as an unhandled 500 — though nothing is
scheduled. -/
theorem backend_unreachable_counterexample :
    (redirect_with_backend "k" 0 3600 (jwt_encode "k" ⟨"http://cb", 5, "http://dest", 100⟩)
        "http://h" (some "u1") (.unreachable ⟨[], []⟩)).outcome
      = .internalServerError "ConnectionError" ∧
    (redirect_with_backend "k" 0 3600 (jwt_encode "k" ⟨"http://cb", 5, "http://dest", 100⟩)
        "http://h" (some "u1") (.unreachable ⟨[], []⟩)).outcome
      ≠ .response (.httpError 503 "Redis is not available") :=
  ⟨by decide, by decide⟩

/-- C4 (amended): on a valid, unexpired token, a missing Redis client fails
the request with 503; a client whose backend is unreachable fails it with an
unhandled `ConnectionError` (HTTP 500) instead of 503. In both cases the
backend state is unchanged, nothing is treated as a first visit and no
callback is scheduled. -/
theorem backend_unavailable_hard_failure (secret base st : String) (now cfg : Nat)
    (p : LinkPayload) (rs : RedisState)
    (hexp : now < p.exp) (hcb : p.callback_url ≠ "") (hs : p.seconds ≠ 0)
    (hru : p.redirect_url ≠ "") :
    (redirect_with_backend secret now cfg (jwt_encode secret p) base (some st) .noClient =
      ⟨.response (.httpError 503 "Redis is not available"), .noClient, []⟩) ∧
    (redirect_with_backend secret now cfg (jwt_encode secret p) base (some st)
        (.unreachable rs) =
      ⟨.internalServerError "ConnectionError", .unreachable rs, []⟩) := by
  constructor <;>
    (rw [redirect_with_backend, jwt_decode_encode, if_neg (not_le.mpr hexp)]
     simp [hcb, hs, hru])

/-- Witness for C4's amended theorem at a concrete input. -/
theorem backend_unavailable_hard_failure_witness :
    (redirect_with_backend "k" 0 3600 (jwt_encode "k" ⟨"http://cb", 5, "http://dest", 100⟩)
        "http://h" (some "u1") .noClient =
      ⟨.response (.httpError 503 "Redis is not available"), .noClient, []⟩) ∧
    (redirect_with_backend "k" 0 3600 (jwt_encode "k" ⟨"http://cb", 5, "http://dest", 100⟩)
        "http://h" (some "u1") (.unreachable ⟨[], []⟩) =
      ⟨.internalServerError "ConnectionError", .unreachable ⟨[], []⟩, []⟩) :=
  backend_unavailable_hard_failure "k" "http://h" "u1" 0 3600
    ⟨"http://cb", 5, "http://dest", 100⟩ ⟨[], []⟩
    (by decide) (by decide) (by decide) (by decide)

/-- C5: on a first visit, the expiry of the visited key is set to the
configured retention window exactly when the key had no prior expiry, and an
existing expiry is never refreshed or changed. -/
theorem ttl_anchoring (secret base st : String) (now cfg : Nat) (p : LinkPayload)
    (rs0 : RedisState)
    (hexp : now < p.exp) (hcb : p.callback_url ≠ "") (hs : p.seconds ≠ 0)
    (hru : p.redirect_url ≠ "")
    (hfirst : rs0.sismember (visited_key base p.redirect_url) st = false) :
    ∃ rs', (redirect secret now cfg (jwt_encode secret p) base (some st) (some rs0)).store
        = some rs' ∧
      (assocFind rs0.ttls (visited_key base p.redirect_url) = none →
        assocFind rs'.ttls (visited_key base p.redirect_url) = some cfg) ∧
      (∀ t, assocFind rs0.ttls (visited_key base p.redirect_url) = some t →
        assocFind rs'.ttls (visited_key base p.redirect_url) = some t) := by
  refine ⟨recordVisit rs0 (visited_key base p.redirect_url) st cfg, ?_, ?_, ?_⟩
  · rw [redirect_first_visit secret base st now cfg p rs0 hexp hcb hs hru hfirst]
  · intro h
    rw [assocFind_ttls_recordVisit, h]
    rfl
  · intro t h
    rw [assocFind_ttls_recordVisit, h]
    rfl

/-- Witness for C5 at a concrete input. -/
theorem ttl_anchoring_witness :
    ∃ rs', (redirect "k" 0 3600 (jwt_encode "k" ⟨"http://cb", 5, "http://dest", 100⟩) "http://h"
        (some "u1") (some ⟨[], []⟩)).store = some rs' ∧
      (assocFind (⟨[], []⟩ : RedisState).ttls (visited_key "http://h" "http://dest") = none →
        assocFind rs'.ttls (visited_key "http://h" "http://dest") = some 3600) ∧
      (∀ t, assocFind (⟨[], []⟩ : RedisState).ttls (visited_key "http://h" "http://dest") = some t →
        assocFind rs'.ttls (visited_key "http://h" "http://dest") = some t) :=
  ttl_anchoring "k" "http://h" "u1" 0 3600 ⟨"http://cb", 5, "http://dest", 100⟩ ⟨[], []⟩
    (by decide) (by decide) (by decide) (by decide) (by decide)

/-- C9: a redemption whose visitor state is already recorded leaves the store
entirely unchanged, schedules no dispatch job, and still redirects the
visitor to the destination. -/
theorem repeat_visit_frame (secret base st : String) (now cfg : Nat) (p : LinkPayload)
    (rs : RedisState)
    (hexp : now < p.exp) (hcb : p.callback_url ≠ "") (hs : p.seconds ≠ 0)
    (hru : p.redirect_url ≠ "")
    (hvisited : rs.sismember (visited_key base p.redirect_url) st = true) :
    redirect secret now cfg (jwt_encode secret p) base (some st) (some rs) =
      ⟨.redirectTo p.redirect_url, some rs, []⟩ :=
  redirect_repeat_visit secret base st now cfg p rs hexp hcb hs hru hvisited

/-- Witness for C9 at a concrete input. -/
theorem repeat_visit_frame_witness :
    redirect "k" 0 3600 (jwt_encode "k" ⟨"http://cb", 5, "http://dest", 100⟩) "http://h"
        (some "u1")
        (some ⟨[(visited_key "http://h" "http://dest", ["u1"])], []⟩) =
      ⟨.redirectTo "http://dest",
        some ⟨[(visited_key "http://h" "http://dest", ["u1"])], []⟩, []⟩ :=
  repeat_visit_frame "k" "http://h" "u1" 0 3600 ⟨"http://cb", 5, "http://dest", 100⟩
    ⟨[(visited_key "http://h" "http://dest", ["u1"])], []⟩
    (by decide) (by decide) (by decide) (by decide)
    (by simp [RedisState.sismember, assocFind])

set_option maxRecDepth 100000 in
/-- C7 counterexample: an expired token and a tampered token produce
different client responses — the details "Link has expired" and
"Invalid link" are distinct, so the responses are not identical. -/
theorem token_error_responses_counterexample :
    (redirect "k" 100 3600 (jwt_encode "k" ⟨"http://cb", 5, "http://dest", 100⟩) "http://h"
        (some "u1") (some ⟨[], []⟩)).outcome = .httpError 400 "Link has expired" ∧
    (redirect "k" 100 3600 (⟨⟨"http://cb", 5, "http://dest", 100⟩, ""⟩ : Token) "http://h"
        (some "u1") (some ⟨[], []⟩)).outcome = .httpError 400 "Invalid link" ∧
    (RedirectOutcome.httpError 400 "Link has expired" ≠ .httpError 400 "Invalid link") :=
  ⟨by decide, by decide, by decide⟩

/-- C7 (amended): every token failing verification yields a 400 client error
with the store untouched and nothing scheduled, but the expired and tampered
cases carry different detail strings. -/
theorem token_error_responses (secret base st : String) (now cfg : Nat) (tok : Token)
    (store : Option RedisState) :
    (jwt_decode secret tok now = .expired →
      redirect secret now cfg tok base (some st) store
        = ⟨.httpError 400 "Link has expired", store, []⟩) ∧
    (jwt_decode secret tok now = .invalid →
      redirect secret now cfg tok base (some st) store
        = ⟨.httpError 400 "Invalid link", store, []⟩) := by
  constructor <;> intro h <;> simp only [redirect, h]

set_option maxRecDepth 100000 in
/-- Witness for C7's amended theorem at concrete failing tokens. -/
theorem token_error_responses_witness :
    redirect "k" 100 3600 (jwt_encode "k" ⟨"http://cb", 5, "http://dest", 100⟩) "http://h"
        (some "u1") (some ⟨[], []⟩)
      = ⟨.httpError 400 "Link has expired", some ⟨[], []⟩, []⟩ ∧
    redirect "k" 100 3600 (⟨⟨"http://cb", 5, "http://dest", 100⟩, ""⟩ : Token) "http://h"
        (some "u1") (some ⟨[], []⟩)
      = ⟨.httpError 400 "Invalid link", some ⟨[], []⟩, []⟩ :=
  ⟨(token_error_responses "k" "http://h" "u1" 100 3600
      (jwt_encode "k" ⟨"http://cb", 5, "http://dest", 100⟩) (some ⟨[], []⟩)).1 (by decide),
   (token_error_responses "k" "http://h" "u1" 100 3600
      (⟨⟨"http://cb", 5, "http://dest", 100⟩, ""⟩ : Token) (some ⟨[], []⟩)).2 (by decide)⟩

set_option maxRecDepth 100000 in
/-- C8 counterexample: two distinct `(base_url, redirect_url)` pairs whose
pre-hash encodings coincide, so they collapse to the same visited key. -/
theorem visited_key_collision :
    (("a|x", "y") ≠ (("a", "x|y") : String × String)) ∧
    key_source "a|x" "y" = key_source "a" "x|y" ∧
    visited_key "a|x" "y" = visited_key "a" "x|y" := by
  refine ⟨by decide, by decide, ?_⟩
  have h : key_source "a|x" "y" = key_source "a" "x|y" := by decide
  unfold visited_key
  rw [h]

/-- Separator-splitting is injective when neither left part contains the
separator. -/
theorem append_sep_eq_iff {sep : Char} {xs1 : List Char} {xs2 ys1 ys2 : List Char}
    (h1 : sep ∉ xs1) (h2 : sep ∉ xs2)
    (h : xs1 ++ sep :: ys1 = xs2 ++ sep :: ys2) : xs1 = xs2 ∧ ys1 = ys2 := by
  induction xs1 generalizing xs2 with
  | nil =>
    cases xs2 with
    | nil => simpa using h
    | cons b bs =>
      simp at h
      exact absurd (h.1 ▸ List.mem_cons_self b bs) h2
  | cons a as ih =>
    cases xs2 with
    | nil =>
      simp at h
      exact absurd (h.1 ▸ List.mem_cons_self a as) h1
    | cons b bs =>
      simp at h
      obtain ⟨hab, h'⟩ := h
      have hrest := ih (fun hm => h1 (List.mem_cons_of_mem _ hm))
        (fun hm => h2 (List.mem_cons_of_mem _ hm)) h'
      exact ⟨by rw [hab, hrest.1], hrest.2⟩

/-- C8 (amended): the pre-hash encoding `base_url + "|" + redirect_url` is
injective on pairs whose base URL does not contain the separator character;
equal key sources then force equal pairs. -/
theorem key_source_injective_no_sep (b1 r1 b2 r2 : String)
    (h1 : '|' ∉ b1.data) (h2 : '|' ∉ b2.data)
    (h : key_source b1 r1 = key_source b2 r2) :
    b1 = b2 ∧ r1 = r2 := by
  have hpipe : ("|" : String).data = ['|'] := rfl
  have hd : b1.data ++ '|' :: r1.data = b2.data ++ '|' :: r2.data := by
    have hcongr := congrArg String.data h
    simpa [key_source, String.data_append, hpipe, List.append_assoc] using hcongr
  obtain ⟨hb, hr⟩ := append_sep_eq_iff h1 h2 hd
  exact ⟨String.ext hb, String.ext hr⟩

/-- Witness for C8's amended theorem at a concrete input. -/
theorem key_source_injective_no_sep_witness :
    ("http://h" : String) = "http://h" ∧ ("http://d" : String) = "http://d" :=
  key_source_injective_no_sep "http://h" "http://d" "http://h" "http://d"
    (by decide) (by decide) (by decide)

/-- C10: the 400 "State is required" rejection happens exactly when the state
query parameter is absent; the empty string is an accepted visitor state that
is recorded for deduplication and carried in the scheduled notification. -/
theorem state_param_edge_cases (secret base : String) (now cfg : Nat) (tok : Token)
    (store : Option RedisState) (p : LinkPayload) (rs : RedisState)
    (hexp : now < p.exp) (hcb : p.callback_url ≠ "") (hs : p.seconds ≠ 0)
    (hru : p.redirect_url ≠ "")
    (hfirst : rs.sismember (visited_key base p.redirect_url) "" = false) :
    (redirect secret now cfg tok base none store
        = ⟨.httpError 400 "State is required", store, []⟩) ∧
    (∀ st, (redirect secret now cfg tok base (some st) store).outcome
        ≠ .httpError 400 "State is required") ∧
    (redirect secret now cfg (jwt_encode secret p) base (some "") (some rs)
        = ⟨.redirectTo p.redirect_url,
            some (recordVisit rs (visited_key base p.redirect_url) "" cfg),
            [(p.callback_url, "", p.seconds)]⟩) := by
  refine ⟨rfl, ?_, redirect_first_visit secret base "" now cfg p rs hexp hcb hs hru hfirst⟩
  intro st
  simp only [redirect]
  rcases hdec : jwt_decode secret tok now with p' | _ | _
  · by_cases hfal : p'.callback_url = "" ∨ p'.seconds = 0 ∨ p'.redirect_url = ""
    · simp [hdec, hfal]
    · cases store with
      | none => simp [hdec, hfal]
      | some rs' =>
        by_cases hmem : rs'.sismember (visited_key base p'.redirect_url) st = true
        · simp [hdec, hfal, hmem]
        · simp [hdec, hfal, hmem]
  · simp [hdec]
  · simp [hdec]

/-- Witness for C10 at a concrete input. -/
theorem state_param_edge_cases_witness :
    (redirect "k" 0 3600 (jwt_encode "k" ⟨"http://cb", 5, "http://dest", 100⟩) "http://h"
        none (some ⟨[], []⟩)
      = ⟨.httpError 400 "State is required", some ⟨[], []⟩, []⟩) ∧
    (∀ st, (redirect "k" 0 3600 (jwt_encode "k" ⟨"http://cb", 5, "http://dest", 100⟩) "http://h"
        (some st) (some ⟨[], []⟩)).outcome ≠ .httpError 400 "State is required") ∧
    (redirect "k" 0 3600 (jwt_encode "k" ⟨"http://cb", 5, "http://dest", 100⟩) "http://h"
        (some "") (some ⟨[], []⟩)
      = ⟨.redirectTo "http://dest",
          some (recordVisit ⟨[], []⟩ (visited_key "http://h" "http://dest") "" 3600),
          [("http://cb", "", 5)]⟩) :=
  state_param_edge_cases "k" "http://h" 0 3600
    (jwt_encode "k" ⟨"http://cb", 5, "http://dest", 100⟩) (some ⟨[], []⟩)
    ⟨"http://cb", 5, "http://dest", 100⟩ ⟨[], []⟩
    (by decide) (by decide) (by decide) (by decide) (by decide)
